import Mathlib

/-!
# Capture-and-publish pipeline

A shallow embedding of `src/main.cpp`, `src/video_capture.cpp` and
`src/zmq_sender.cpp`.

* C++ `int` values are `Int`; the only arithmetic on them is `1000000 / fps_`.
* Objects mutated through references or `this` are passed and returned
  explicitly.
* The camera, the JPEG encoder, the socket, the clock and the signals are
  outside the program.  Their answers are collected in a `World`, indexed by
  the pass of the capture loop in which the program asks for them.
* Every call that leaves the process (a socket call, a sleep, the signal
  handler running) is appended to a trace of `Event`s.  Console output is not
  modelled.
* A loop that may run forever takes a fuel argument that bounds the number of
  times its condition is evaluated.
-/

namespace DVR

/-! ## jsoncpp values, as far as `load_config` looks at them -/

/-- Smallest value of a C++ `int` (`Json::Value::minInt`). -/
def INT_MIN : Int := -2147483648

/-- Largest value of a C++ `int` (`Json::Value::maxInt`). -/
def INT_MAX : Int := 2147483647

/-- A parsed `Json::Value`.  Real numbers are left out. -/
inductive JsonValue where
  | nullValue
  | intValue (i : Int)
  | booleanValue (b : Bool)
  | stringValue (s : String)
  | arrayValue
  | objectValue (members : List (String × JsonValue))

/-- The call `Json::Value::asInt()`: an integer converts when it fits in an `int`,
null converts to 0, a boolean to 0 or 1, anything else throws. -/
def JsonValue.asInt : JsonValue → Except String Int
  | .nullValue => .ok 0
  | .intValue i =>
      if INT_MIN ≤ i ∧ i ≤ INT_MAX then .ok i else .error "LargestInt out of Int range"
  | .booleanValue b => .ok (if b then 1 else 0)
  | _ => .error "Value is not convertible to Int."

/-- The call `Json::Value::isMember(key)`: defined on objects and on null, throws on
every other kind of value. -/
def JsonValue.isMember (root : JsonValue) (key : String) : Except String Bool :=
  match root with
  | .nullValue => .ok false
  | .objectValue members => .ok (members.lookup key).isSome
  | _ => .error "in Json::Value::find(begin, end): requires objectValue or nullValue"

/-- The call `root[key]`, used by `load_config` only after `isMember(key)` held. -/
def JsonValue.get (root : JsonValue) (key : String) : JsonValue :=
  match root with
  | .objectValue members => (members.lookup key).getD .nullValue
  | _ => .nullValue

/-- What `load_config` finds at the path it is given. -/
inductive ConfigFile where
  /-- The stream did not open: `file.is_open()` is false. -/
  | unreadable
  /-- The text is not JSON: `Json::parseFromStream` returns false. -/
  | malformed (errors : String)
  /-- The text parsed to `root`. -/
  | document (root : JsonValue)

/-! ## Frames and the outside world -/

/-- A `cv::Mat` holding a two-dimensional image. -/
structure Frame where
  cols : Nat
  rows : Nat
  data : List Nat
deriving DecidableEq

/-- The call `cv::Mat::empty()`. -/
def Frame.empty (f : Frame) : Bool := f.cols == 0 || f.rows == 0

/-- What `cv::imencode` does with a frame. -/
inductive EncodeOutcome where
  /-- Returns true and fills the buffer. -/
  | encoded (buffer : List Nat)
  /-- Returns false. -/
  | refused
  /-- Throws `cv::Exception`. -/
  | thrown
deriving DecidableEq

/-- What `socket_->send(message, zmq::send_flags::none)` does. -/
inductive SendOutcome where
  /-- Returns the number of bytes queued. -/
  | sent (bytes : Nat)
  /-- Returns an empty optional (`EAGAIN`). -/
  | again
  /-- Throws `zmq::error_t`. -/
  | error
deriving DecidableEq

/-- One call that leaves the process. -/
inductive Event where
  /-- The handler `signal_handler` ran. -/
  | signal_handled
  /-- The call `socket_->bind(address)` and whether it returned. -/
  | socket_bind (address : String) (ok : Bool)
  /-- A socket is closed, by `socket_->close()` or by its destructor; `bound` is the
  endpoint it was bound to, if any. -/
  | socket_close (bound : Option String)
  /-- The call `zmq_sender_->send_frame(frame)`. -/
  | send_frame (frame : Frame)
  /-- The call `socket_->send(message, ...)` and what came of it. -/
  | socket_send (message : List Nat) (outcome : SendOutcome)
  /-- The call `std::this_thread::sleep_for(d)`, `d` in clock ticks. -/
  | sleep_for (ticks : Int)
deriving DecidableEq

/-- The answers of everything outside the program.  `k` counts the passes of the
capture loop from 0. -/
structure World where
  /-- Whether `cap_.open(index)` leaves the camera opened. -/
  camera_opens : Int → Bool
  /-- Whether `socket_->bind(address)` returns (otherwise it throws). -/
  bind_ok : String → Bool
  /-- The image the device delivers in pass `k`, if it delivers one. -/
  grab : Nat → Option Frame
  /-- The pixels `cv::resize` computes for a source frame and a target size. -/
  resample : Frame → Nat → Nat → List Nat
  /-- The JPEG encoder. -/
  imencode : Frame → EncodeOutcome
  /-- The transport in pass `k`. -/
  send : Nat → List Nat → SendOutcome
  /-- Ticks of `high_resolution_clock` between the two readings of pass `k`: the
  difference `now() - start_time`, negative when the clock was set back in between. -/
  elapsed : Nat → Int
  /-- Whether SIGINT or SIGTERM is delivered during pass `k`. -/
  signal : Nat → Bool

/-! ## `zmq_sender.cpp` -/

/-- A `zmq::socket_t`: the endpoint it is bound to, if any. -/
structure Socket where
  endpoint : Option String
deriving DecidableEq

/-- The fields of `ZMQSender`. -/
structure ZMQSender where
  socket_ : Option Socket
  address_ : String
  connected_ : Bool
deriving DecidableEq

/-- The constructor `ZMQSender::ZMQSender(address)`. -/
def ZMQSender.new (address : String) : ZMQSender :=
  { socket_ := none, address_ := address, connected_ := false }

/-- The method `ZMQSender::close`. -/
def ZMQSender.close (s : ZMQSender) : ZMQSender × List Event :=
  match s.socket_ with
  | some sock => ({ s with socket_ := none, connected_ := false }, [.socket_close sock.endpoint])
  | none => ({ s with connected_ := false }, [])

/-- The destructor `ZMQSender::~ZMQSender`: the events of `close()`. -/
def ZMQSender.destroy (s : ZMQSender) : List Event := s.close.2

/-- The method `ZMQSender::initialize`: the assignment to `socket_` destroys the socket
held before, then the new socket is bound to `address_`. -/
def ZMQSender.initialize (w : World) (s : ZMQSender) : Bool × ZMQSender × List Event :=
  let replaced : List Event :=
    match s.socket_ with
    | some sock => [.socket_close sock.endpoint]
    | none => []
  if w.bind_ok s.address_ then
    (true, { s with socket_ := some { endpoint := some s.address_ }, connected_ := true },
      replaced ++ [.socket_bind s.address_ true])
  else
    (false, { s with socket_ := some { endpoint := none } },
      replaced ++ [.socket_bind s.address_ false])

/-- The method `ZMQSender::set_address`. -/
def ZMQSender.set_address (s : ZMQSender) (address : String) : ZMQSender :=
  { s with address_ := address }

/-- The method `ZMQSender::is_connected`. -/
def ZMQSender.is_connected (s : ZMQSender) : Bool := s.connected_

/-- The method `ZMQSender::serialize_frame`: the buffer when `cv::imencode` returns
true; false when it returns false or throws `cv::Exception`. -/
def ZMQSender.serialize_frame (w : World) (frame : Frame) : Option (List Nat) :=
  match w.imencode frame with
  | .encoded buffer => some buffer
  | .refused => none
  | .thrown => none

/-- The method `ZMQSender::send_frame` in pass `k`. -/
def ZMQSender.send_frame (w : World) (k : Nat) (s : ZMQSender) (frame : Frame) :
    Bool × List Event :=
  if !s.connected_ || s.socket_.isNone then (false, [])
  else
    match ZMQSender.serialize_frame w frame with
    | none => (false, [])
    | some buffer =>
        match w.send k buffer with
        | .sent n => (true, [.socket_send buffer (.sent n)])
        | .again => (false, [.socket_send buffer .again])
        | .error => (false, [.socket_send buffer .error])

/-! ## `video_capture.cpp` -/

/-- The fields of `VideoCapture`; `cap_opened` is `cap_.isOpened()`. -/
structure VideoCapture where
  cap_opened : Bool
  zmq_sender_ : ZMQSender
  camera_index_ : Int
  frame_width_ : Int
  frame_height_ : Int
  fps_ : Int
  zmq_port_ : Int
  running_ : Bool
deriving DecidableEq

/-- The string `"tcp://*:" + std::to_string(port)`. -/
def endpoint (port : Int) : String := "tcp://*:" ++ toString port

/-- The constructor `VideoCapture::VideoCapture(camera_index, width, height, fps)`. -/
def VideoCapture.new (camera_index width height fps : Int) : VideoCapture :=
  { cap_opened := false
    zmq_sender_ := ZMQSender.new (endpoint 5555)
    camera_index_ := camera_index
    frame_width_ := width
    frame_height_ := height
    fps_ := fps
    zmq_port_ := 5555
    running_ := false }

/-- The method `VideoCapture::set_camera_index`. -/
def VideoCapture.set_camera_index (c : VideoCapture) (index : Int) : VideoCapture :=
  { c with camera_index_ := index }

/-- The method `VideoCapture::set_resolution`. -/
def VideoCapture.set_resolution (c : VideoCapture) (width height : Int) : VideoCapture :=
  { c with frame_width_ := width, frame_height_ := height }

/-- The method `VideoCapture::set_fps`. -/
def VideoCapture.set_fps (c : VideoCapture) (fps : Int) : VideoCapture :=
  { c with fps_ := fps }

/-- The method `VideoCapture::set_zmq_port`: the assignment to `zmq_sender_` builds a
new sender and destroys the one held before. -/
def VideoCapture.set_zmq_port (c : VideoCapture) (port : Int) : VideoCapture × List Event :=
  ({ c with zmq_port_ := port, zmq_sender_ := ZMQSender.new (endpoint port) },
   c.zmq_sender_.destroy)

/-- The method `VideoCapture::stop`. -/
def VideoCapture.stop (c : VideoCapture) : VideoCapture := { c with running_ := false }

/-- The method `VideoCapture::is_running`. -/
def VideoCapture.is_running (c : VideoCapture) : Bool := c.running_

/-! ## `main.cpp`: `load_config` -/

/-- Statements inside the `try` block of `load_config`: they work on the capture
object and the trace, and an exception leaves both as they are at the throw. -/
abbrev Load := ExceptT String (StateM (VideoCapture × List Event))

/-- A jsoncpp call inside the `try` block. -/
def Load.call {α : Type} (r : Except String α) : Load α := fun st => (r, st)

/-- A setter without events applied to the capture object. -/
def Load.set (f : VideoCapture → VideoCapture) : Load Unit :=
  fun st => (.ok (), (f st.1, st.2))

/-- A setter with events applied to the capture object. -/
def Load.setLogged (f : VideoCapture → VideoCapture × List Event) : Load Unit :=
  fun st => (.ok (), ((f st.1).1, st.2 ++ (f st.1).2))

/-- The statement of `load_config` on the key `camera_index`. -/
def load_camera_index (root : JsonValue) : Load Unit := do
  if (← Load.call (root.isMember "camera_index")) then
    let index ← Load.call (root.get "camera_index").asInt
    Load.set (·.set_camera_index index)

/-- The statement of `load_config` on the keys `frame_width` and `frame_height`. -/
def load_resolution (root : JsonValue) : Load Unit := do
  if (← Load.call (root.isMember "frame_width")) then
    if (← Load.call (root.isMember "frame_height")) then
      let width ← Load.call (root.get "frame_width").asInt
      let height ← Load.call (root.get "frame_height").asInt
      Load.set (·.set_resolution width height)

/-- The statement of `load_config` on the key `fps`. -/
def load_fps (root : JsonValue) : Load Unit := do
  if (← Load.call (root.isMember "fps")) then
    let fps ← Load.call (root.get "fps").asInt
    Load.set (·.set_fps fps)

/-- The statement of `load_config` on the key `zmq_port`. -/
def load_zmq_port (root : JsonValue) : Load Unit := do
  if (← Load.call (root.isMember "zmq_port")) then
    let port ← Load.call (root.get "zmq_port").asInt
    Load.setLogged (·.set_zmq_port port)

/-- The statements of `load_config` after the document parsed, in source order. -/
def load_document (root : JsonValue) : Load Unit := do
  load_camera_index root
  load_resolution root
  load_fps root
  load_zmq_port root

/-- The function `load_config(capture, config_file)`: its return value, the capture
object after the call and the events of the call. -/
def load_config (capture : VideoCapture) (file : ConfigFile) :
    Bool × VideoCapture × List Event :=
  match file with
  | .unreadable => (false, capture, [])
  | .malformed _ => (false, capture, [])
  | .document root =>
      match load_document root (capture, []) with
      | (.ok _, st) => (true, st.1, st.2)
      | (.error _, st) => (false, st.1, st.2)

/-! ## `video_capture.cpp`: opening the device and the capture loop -/

/-- The method `VideoCapture::initialize`. -/
def VideoCapture.initialize (w : World) (c : VideoCapture) :
    Bool × VideoCapture × List Event :=
  let c := { c with cap_opened := w.camera_opens c.camera_index_ }
  if !c.cap_opened then (false, c, [])
  else
    let r := ZMQSender.initialize w c.zmq_sender_
    if !r.1 then (false, { c with zmq_sender_ := r.2.1 }, r.2.2)
    else (true, { c with zmq_sender_ := r.2.1 }, r.2.2)

/-- The call `cap_.read(frame)` in pass `k`: true exactly when the device is open and
delivers a non-empty image. -/
def cap_read (w : World) (c : VideoCapture) (k : Nat) : Option Frame :=
  if c.cap_opened then
    match w.grab k with
    | some frame => if frame.empty then none else some frame
    | none => none
  else none

/-- The call `cv::resize(src, dst, cv::Size(width, height))`: throws `cv::Exception`
on an empty source or an empty target size. -/
def resize (w : World) (src : Frame) (width height : Int) : Except String Frame :=
  if src.empty then .error "!ssize.empty()"
  else if width ≤ 0 ∨ height ≤ 0 then .error "inv_scale_x > 0"
  else
    .ok { cols := width.toNat, rows := height.toNat
          data := w.resample src width.toNat height.toNat }

/-- The "resize frame if needed" statement of `capture_and_send_frame`. -/
def resize_if_needed (w : World) (c : VideoCapture) (frame : Frame) : Except String Frame :=
  if (frame.cols : Int) ≠ c.frame_width_ ∨ (frame.rows : Int) ≠ c.frame_height_ then
    resize w frame c.frame_width_ c.frame_height_
  else .ok frame

/-- The method `VideoCapture::capture_and_send_frame` in pass `k`: its return value and
its events, or the `cv::Exception` that escapes it. -/
def VideoCapture.capture_and_send_frame (w : World) (k : Nat) (c : VideoCapture) :
    Except String (Bool × List Event) :=
  match cap_read w c k with
  | none => .ok (false, [])
  | some frame =>
      match resize_if_needed w c frame with
      | .error e => .error e
      | .ok frame =>
          let r := c.zmq_sender_.send_frame w k frame
          .ok (r.1, .send_frame frame :: r.2)

/-- The process: the flag `running` of `main.cpp`, the capture object of `main`, the
events so far and the number of loop passes begun. -/
structure Proc where
  running : Bool
  capture : VideoCapture
  trace : List Event
  passes : Nat
deriving DecidableEq

/-- The handler `signal_handler` of `main.cpp`. -/
def signal_handler (p : Proc) : Proc :=
  { p with running := false, trace := p.trace ++ [.signal_handled] }

/-- Delivery of the signals of pass `k`. -/
def deliver (w : World) (k : Nat) (p : Proc) : Proc :=
  if w.signal k then signal_handler p else p

/-- How a call ends. -/
inductive Outcome where
  /-- The call returned. -/
  | returned
  /-- An uncaught exception or a division by zero ended the process. -/
  | aborted
  /-- The fuel ran out; the loop was still going. -/
  | unfinished
deriving DecidableEq

/-- The expression `1000000 / fps_` in microseconds; undefined for `fps_ = 0`. -/
def frame_interval (fps : Int) : Option Int :=
  if fps = 0 then none else some (Int.tdiv 1000000 fps)

/-- Ticks of `high_resolution_clock` in a microsecond (a tick is a nanosecond). -/
def TICKS_PER_MICROSECOND : Int := 1000

/-- The "maintain frame rate" statement of `run`: the argument of `sleep_for` in
ticks, or `none` when the statement does not sleep. -/
def pacing_sleep (interval : Int) (elapsed : Int) : Option Int :=
  if elapsed < interval * TICKS_PER_MICROSECOND then
    some (interval * TICKS_PER_MICROSECOND - elapsed)
  else none

/-- The events of the "maintain frame rate" statement. -/
def pacing_events (interval : Int) (elapsed : Int) : List Event :=
  match pacing_sleep interval elapsed with
  | some ticks => [.sleep_for ticks]
  | none => []

/-- The `while (running_)` loop of `VideoCapture::run` from pass `k` on. -/
def run_loop (w : World) (interval : Int) : Nat → Nat → Proc → Outcome × Proc
  | 0, _, p => (.unfinished, p)
  | fuel + 1, k, p =>
      if p.capture.running_ then
        let p := deliver w k { p with passes := p.passes + 1 }
        match p.capture.capture_and_send_frame w k with
        | .error _ => (.aborted, p)
        | .ok (false, events) => (.returned, { p with trace := p.trace ++ events })
        | .ok (true, events) =>
            run_loop w interval fuel (k + 1)
              { p with trace := p.trace ++ events ++ pacing_events interval (w.elapsed k) }
      else (.returned, p)

/-- The method `VideoCapture::run`. -/
def VideoCapture.run (w : World) (fuel : Nat) (p : Proc) : Outcome × Proc :=
  if !p.capture.cap_opened then (.returned, p)
  else
    let p := { p with capture := { p.capture with running_ := true } }
    match frame_interval p.capture.fps_ with
    | none => (.aborted, p)
    | some interval => run_loop w interval fuel 0 p

/-! ## `main.cpp`: `main` -/

/-- How the process ends. -/
inductive Exit where
  /-- The function `main` returned `code`. -/
  | code (n : Int)
  /-- The process was ended from inside `run`. -/
  | aborted
  /-- The fuel ran out; the capture loop was still going. -/
  | unfinished
deriving DecidableEq

/-- The function `main` given what is at the configuration path.  When `main` returns,
the destructor of `capture` runs `stop()` and destroys the sender. -/
def main (w : World) (file : ConfigFile) (fuel : Nat) : Exit × Proc :=
  let capture := VideoCapture.new 0 640 480 30
  let loaded := load_config capture file
  let opened := VideoCapture.initialize w loaded.2.1
  let p : Proc :=
    { running := true, capture := opened.2.1, trace := loaded.2.2 ++ opened.2.2, passes := 0 }
  if !opened.1 then
    (.code 1, { p with capture := p.capture.stop
                       trace := p.trace ++ p.capture.zmq_sender_.destroy })
  else
    match VideoCapture.run w fuel p with
    | (.returned, p) =>
        (.code 0, { p with capture := p.capture.stop
                           trace := p.trace ++ p.capture.zmq_sender_.destroy })
    | (.aborted, p) => (.aborted, p)
    | (.unfinished, p) => (.unfinished, p)

/-! ## Vocabulary of the specification -/

/-- The keys `load_config` looks for. -/
def CONFIG_KEYS : List String :=
  ["camera_index", "frame_width", "frame_height", "fps", "zmq_port"]

/-- The integer a list of members stores under `key`, if it stores one. -/
def member_int (members : List (String × JsonValue)) (key : String) : Option Int :=
  match members.lookup key with
  | some (.intValue i) => some i
  | _ => none

/-- The configuration the specification describes for a document with integer values:
the built-in defaults with `camera_index`, `fps` and `zmq_port` replaced when their key
is present, and width and height replaced when both of their keys are present. -/
def overridden_defaults (members : List (String × JsonValue)) : VideoCapture :=
  let resolution : Int × Int :=
    match member_int members "frame_width", member_int members "frame_height" with
    | some width, some height => (width, height)
    | _, _ => (640, 480)
  let port := (member_int members "zmq_port").getD 5555
  { cap_opened := false
    zmq_sender_ := ZMQSender.new (endpoint port)
    camera_index_ := (member_int members "camera_index").getD 0
    frame_width_ := resolution.1
    frame_height_ := resolution.2
    fps_ := (member_int members "fps").getD 30
    zmq_port_ := port
    running_ := false }

/-- The constraints of the data model on a capture configuration. -/
def valid_config (c : VideoCapture) : Prop :=
  0 ≤ c.camera_index_ ∧ 0 < c.frame_width_ ∧ 0 < c.frame_height_ ∧ 0 < c.fps_ ∧
    1 ≤ c.zmq_port_ ∧ c.zmq_port_ ≤ 65535

/-! ## Sample inputs -/

/-- A document that sets all five keys. -/
def fullDocument : JsonValue :=
  .objectValue [("camera_index", .intValue 1), ("frame_width", .intValue 1280),
    ("frame_height", .intValue 720), ("fps", .intValue 15), ("zmq_port", .intValue 6000)]

/-- The members of a document without the key `fps`. -/
def noFpsMembers : List (String × JsonValue) :=
  [("camera_index", .intValue 2), ("frame_width", .intValue 1280),
    ("frame_height", .intValue 720), ("zmq_port", .intValue 6000)]

/-- The document `{"fps": 0}`. -/
def zeroFpsDocument : JsonValue := .objectValue [("fps", .intValue 0)]

/-- The document `{"camera_index": 2, "fps": "thirty"}`. -/
def textFpsDocument : JsonValue :=
  .objectValue [("camera_index", .intValue 2), ("fps", .stringValue "thirty")]

/-- A world in which every call succeeds: the camera delivers 640x480 frames, the pass
takes 5 ms of work, and no signal arrives. -/
def steadyWorld : World :=
  { camera_opens := fun _ => true
    bind_ok := fun _ => true
    grab := fun k => some { cols := 640, rows := 480, data := [k] }
    resample := fun src _ _ => src.data
    imencode := fun frame => .encoded frame.data
    send := fun _ message => .sent message.length
    elapsed := fun _ => 5000000
    signal := fun _ => false }

/-- The steady world with SIGINT delivered during the first pass of the loop. -/
def interruptedWorld : World := { steadyWorld with signal := fun k => k == 0 }

/-- The steady world with a camera that delivers two frames and then fails. -/
def unpluggedWorld : World :=
  { steadyWorld with grab := fun k => if k < 2 then steadyWorld.grab k else none }

/-- The steady world with a camera that delivers 320x240 frames. -/
def smallFrameWorld : World :=
  { steadyWorld with grab := fun k => some { cols := 320, rows := 240, data := [k] } }

/-- The steady world with an encoder that refuses every frame. -/
def brokenEncoderWorld : World := { steadyWorld with imencode := fun _ => .refused }

/-- The steady world with a camera that does not open. -/
def noCameraWorld : World := { steadyWorld with camera_opens := fun _ => false }

/-! ## Counting on traces -/

/-- Whether an event is a message the transport accepted. -/
def Event.isPublished : Event → Bool
  | .socket_send _ (.sent _) => true
  | _ => false

/-- Whether an event is a call of `socket_->send`. -/
def Event.isSocketSend : Event → Bool
  | .socket_send _ _ => true
  | _ => false

/-- Whether an event is a call of `ZMQSender::send_frame`. -/
def Event.isSendFrame : Event → Bool
  | .send_frame _ => true
  | _ => false

/-- Number of frames published in a trace. -/
def published (trace : List Event) : Nat := trace.countP Event.isPublished

/-- Number of calls of `socket_->send` in a trace. -/
def socket_sends (trace : List Event) : Nat := trace.countP Event.isSocketSend

/-- Number of calls of `ZMQSender::send_frame` in a trace. -/
def send_frame_calls (trace : List Event) : Nat := trace.countP Event.isSendFrame

/-- The capture object of `main` after `initialize` succeeded in the steady world. -/
def boundCapture : VideoCapture :=
  ( VideoCapture.initialize steadyWorld (VideoCapture.new 0 640 480 30)).2.1

/-- The process of `main` at the call of `run` in the steady world. -/
def readyProc : Proc := { running := true, capture := boundCapture, trace := [], passes := 0 }

/-- The capture object of `main` after `load_config`. -/
def loaded_capture (file : ConfigFile) : VideoCapture :=
  (load_config (VideoCapture.new 0 640 480 30) file).2.1

/-- The capture object of `main` after `initialize`. -/
def opened_capture (w : World) (file : ConfigFile) : VideoCapture :=
  ( VideoCapture.initialize w (loaded_capture file)).2.1

/-- Sequencing in the `try` block: the second statement runs on the state the first
left, unless the first threw. -/
theorem load_seq_run (a b : Load Unit) (st : VideoCapture × List Event) :
    (do a; b : Load Unit) st =
      match a st with
      | (.ok _, st1) => b st1
      | (.error e, st1) => (.error e, st1) := by
  show (ExceptT.bind a (fun _ => b)) st = _
  simp only [ExceptT.bind, ExceptT.mk, bind, StateT.bind]
  rcases a st with ⟨r, st1⟩
  cases r <;> rfl

theorem load_camera_index_run (root : JsonValue) (st : VideoCapture × List Event) :
    load_camera_index root st =
      match root.isMember "camera_index" with
      | .error e => (.error e, st)
      | .ok false => (.ok (), st)
      | .ok true =>
          match (root.get "camera_index").asInt with
          | .error e => (.error e, st)
          | .ok v => (.ok (), (st.1.set_camera_index v, st.2)) := by
  unfold load_camera_index
  rcases root.isMember "camera_index" with e | b
  · rfl
  · cases b
    · rfl
    · rcases h : (root.get "camera_index").asInt with e | v
      · simp only [Load.call, bind, ExceptT.bind, ExceptT.mk, ExceptT.bindCont, StateT.bind, h]
        rfl
      · simp only [Load.call, bind, ExceptT.bind, ExceptT.mk, ExceptT.bindCont, StateT.bind, h]
        rfl

theorem load_resolution_run (root : JsonValue) (st : VideoCapture × List Event) :
    load_resolution root st =
      match root.isMember "frame_width" with
      | .error e => (.error e, st)
      | .ok false => (.ok (), st)
      | .ok true =>
          match root.isMember "frame_height" with
          | .error e => (.error e, st)
          | .ok false => (.ok (), st)
          | .ok true =>
              match (root.get "frame_width").asInt with
              | .error e => (.error e, st)
              | .ok width =>
                  match (root.get "frame_height").asInt with
                  | .error e => (.error e, st)
                  | .ok height => (.ok (), (st.1.set_resolution width height, st.2)) := by
  unfold load_resolution
  rcases root.isMember "frame_width" with e | b
  · rfl
  · cases b
    · rfl
    · rcases h0 : root.isMember "frame_height" with e | b
      · simp only [Load.call, bind, ExceptT.bind, ExceptT.mk, ExceptT.bindCont, StateT.bind, h0]
        rfl
      · cases b
        · simp only [Load.call, bind, ExceptT.bind, ExceptT.mk, ExceptT.bindCont, StateT.bind, h0]
          rfl
        · rcases h : (root.get "frame_width").asInt with e | v
          · simp only [Load.call, bind, ExceptT.bind, ExceptT.mk, ExceptT.bindCont, StateT.bind,
              h, h0]
            rfl
          · rcases h' : (root.get "frame_height").asInt with e | v'
            · simp only [Load.call, bind, ExceptT.bind, ExceptT.mk, ExceptT.bindCont,
                StateT.bind, h, h', h0]
              rfl
            · simp only [Load.call, bind, ExceptT.bind, ExceptT.mk, ExceptT.bindCont,
                StateT.bind, h, h', h0]
              rfl

theorem load_fps_run (root : JsonValue) (st : VideoCapture × List Event) :
    load_fps root st =
      match root.isMember "fps" with
      | .error e => (.error e, st)
      | .ok false => (.ok (), st)
      | .ok true =>
          match (root.get "fps").asInt with
          | .error e => (.error e, st)
          | .ok v => (.ok (), (st.1.set_fps v, st.2)) := by
  unfold load_fps
  rcases root.isMember "fps" with e | b
  · rfl
  · cases b
    · rfl
    · rcases h : (root.get "fps").asInt with e | v
      · simp only [Load.call, bind, ExceptT.bind, ExceptT.mk, ExceptT.bindCont, StateT.bind, h]
        rfl
      · simp only [Load.call, bind, ExceptT.bind, ExceptT.mk, ExceptT.bindCont, StateT.bind, h]
        rfl

theorem load_zmq_port_run (root : JsonValue) (st : VideoCapture × List Event) :
    load_zmq_port root st =
      match root.isMember "zmq_port" with
      | .error e => (.error e, st)
      | .ok false => (.ok (), st)
      | .ok true =>
          match (root.get "zmq_port").asInt with
          | .error e => (.error e, st)
          | .ok v => (.ok (), ((st.1.set_zmq_port v).1, st.2 ++ (st.1.set_zmq_port v).2)) := by
  unfold load_zmq_port
  rcases root.isMember "zmq_port" with e | b
  · rfl
  · cases b
    · rfl
    · rcases h : (root.get "zmq_port").asInt with e | v
      · simp only [Load.call, bind, ExceptT.bind, ExceptT.mk, ExceptT.bindCont, StateT.bind, h]
        rfl
      · simp only [Load.call, bind, ExceptT.bind, ExceptT.mk, ExceptT.bindCont, StateT.bind, h]
        rfl

theorem load_document_run (root : JsonValue) (st : VideoCapture × List Event) :
    load_document root st =
      match load_camera_index root st with
      | (.error e, st1) => (.error e, st1)
      | (.ok _, st1) =>
          match load_resolution root st1 with
          | (.error e, st2) => (.error e, st2)
          | (.ok _, st2) =>
              match load_fps root st2 with
              | (.error e, st3) => (.error e, st3)
              | (.ok _, st3) => load_zmq_port root st3 := by
  unfold load_document
  rw [load_seq_run]
  rcases load_camera_index root st with ⟨r1, st1⟩
  cases r1
  · rfl
  simp only []
  rw [load_seq_run]
  rcases load_resolution root st1 with ⟨r2, st2⟩
  cases r2
  · rfl
  simp only []
  rw [load_seq_run]
  rcases load_fps root st2 with ⟨r3, st3⟩
  cases r3 <;> rfl

/-- A document is accepted exactly when none of its statements threw. -/
theorem load_config_accepted (c : VideoCapture) (root : JsonValue)
    (h : (load_config c (.document root)).1 = true) :
    load_document root (c, []) =
      (.ok (), ((load_config c (.document root)).2.1, (load_config c (.document root)).2.2)) := by
  have hdef : load_config c (.document root) =
      match load_document root (c, []) with
      | (.ok _, st) => (true, st.1, st.2)
      | (.error _, st) => (false, st.1, st.2) := rfl
  rw [hdef] at h ⊢
  generalize load_document root (c, []) = x at h ⊢
  rcases x with ⟨r, st⟩
  cases r
  · simp at h
  · rfl

/-- An accepted document went through its four statements in order. -/
theorem load_document_ok (root : JsonValue) (st st4 : VideoCapture × List Event)
    (h : load_document root st = (.ok (), st4)) :
    ∃ st1 st2 st3,
      load_camera_index root st = (.ok (), st1) ∧ load_resolution root st1 = (.ok (), st2) ∧
        load_fps root st2 = (.ok (), st3) ∧ load_zmq_port root st3 = (.ok (), st4) := by
  rw [load_document_run] at h
  generalize h1 : load_camera_index root st = x1 at h
  rcases x1 with ⟨r1, st1⟩
  cases r1
  · cases h
  simp only [] at h
  generalize h2 : load_resolution root st1 = x2 at h
  rcases x2 with ⟨r2, st2⟩
  cases r2
  · cases h
  simp only [] at h
  generalize h3 : load_fps root st2 = x3 at h
  rcases x3 with ⟨r3, st3⟩
  cases r3
  · cases h
  exact ⟨st1, st2, st3, rfl, h2, h3, h⟩

theorem load_camera_index_ok (root : JsonValue) (st st1 : VideoCapture × List Event)
    (h : load_camera_index root st = (.ok (), st1)) :
    st1 = st ∨ (root.isMember "camera_index" = .ok true ∧
      ∃ v, (root.get "camera_index").asInt = .ok v ∧ st1 = (st.1.set_camera_index v, st.2)) := by
  rw [load_camera_index_run] at h
  rcases e : root.isMember "camera_index" with _ | b
  · simp only [e] at h
    cases h
  cases b
  · simp only [e] at h
    cases h
    exact Or.inl rfl
  · rcases a : (root.get "camera_index").asInt with _ | v
    · simp only [e, a] at h
      cases h
    · simp only [e, a] at h
      cases h
      exact Or.inr ⟨rfl, v, rfl, rfl⟩

theorem load_resolution_ok (root : JsonValue) (st st1 : VideoCapture × List Event)
    (h : load_resolution root st = (.ok (), st1)) :
    st1 = st ∨ (root.isMember "frame_width" = .ok true ∧ root.isMember "frame_height" = .ok true ∧
      ∃ width height, (root.get "frame_width").asInt = .ok width ∧
        (root.get "frame_height").asInt = .ok height ∧
        st1 = (st.1.set_resolution width height, st.2)) := by
  rw [load_resolution_run] at h
  rcases e : root.isMember "frame_width" with _ | b
  · simp only [e] at h
    cases h
  cases b
  · simp only [e] at h
    cases h
    exact Or.inl rfl
  rcases e' : root.isMember "frame_height" with _ | b
  · simp only [e, e'] at h
    cases h
  cases b
  · simp only [e, e'] at h
    cases h
    exact Or.inl rfl
  rcases a : (root.get "frame_width").asInt with _ | width
  · simp only [e, e', a] at h
    cases h
  rcases a' : (root.get "frame_height").asInt with _ | height
  · simp only [e, e', a, a'] at h
    cases h
  · simp only [e, e', a, a'] at h
    cases h
    exact Or.inr ⟨rfl, rfl, width, height, rfl, rfl, rfl⟩

theorem load_fps_ok (root : JsonValue) (st st1 : VideoCapture × List Event)
    (h : load_fps root st = (.ok (), st1)) :
    st1 = st ∨ (root.isMember "fps" = .ok true ∧
      ∃ v, (root.get "fps").asInt = .ok v ∧ st1 = (st.1.set_fps v, st.2)) := by
  rw [load_fps_run] at h
  rcases e : root.isMember "fps" with _ | b
  · simp only [e] at h
    cases h
  cases b
  · simp only [e] at h
    cases h
    exact Or.inl rfl
  · rcases a : (root.get "fps").asInt with _ | v
    · simp only [e, a] at h
      cases h
    · simp only [e, a] at h
      cases h
      exact Or.inr ⟨rfl, v, rfl, rfl⟩

theorem load_zmq_port_ok (root : JsonValue) (st st1 : VideoCapture × List Event)
    (h : load_zmq_port root st = (.ok (), st1)) :
    st1 = st ∨ (root.isMember "zmq_port" = .ok true ∧
      ∃ v, (root.get "zmq_port").asInt = .ok v ∧
        st1 = ((st.1.set_zmq_port v).1, st.2 ++ (st.1.set_zmq_port v).2)) := by
  rw [load_zmq_port_run] at h
  rcases e : root.isMember "zmq_port" with _ | b
  · simp only [e] at h
    cases h
  cases b
  · simp only [e] at h
    cases h
    exact Or.inl rfl
  · rcases a : (root.get "zmq_port").asInt with _ | v
    · simp only [e, a] at h
      cases h
    · simp only [e, a] at h
      cases h
      exact Or.inr ⟨rfl, v, rfl, rfl⟩

/-! ## Claims on `load_config` -/

/-- C8 (amended): a document accepted by `load_config` whose values for the five keys,
as converted by `asInt`, satisfy the constraints of the data model yields a capture
configuration that satisfies them, and then the divisor `fps_` of `1000000 / fps_` is
not zero.  The function itself checks no range. -/
theorem load_config_keeps_valid_values (root : JsonValue)
    (hacc : (load_config (VideoCapture.new 0 640 480 30) (.document root)).1 = true)
    (hcam : root.isMember "camera_index" = .ok true →
      ∀ v, (root.get "camera_index").asInt = .ok v → 0 ≤ v)
    (hwid : root.isMember "frame_width" = .ok true →
      ∀ v, (root.get "frame_width").asInt = .ok v → 0 < v)
    (hhei : root.isMember "frame_height" = .ok true →
      ∀ v, (root.get "frame_height").asInt = .ok v → 0 < v)
    (hfps : root.isMember "fps" = .ok true →
      ∀ v, (root.get "fps").asInt = .ok v → 0 < v)
    (hport : root.isMember "zmq_port" = .ok true →
      ∀ v, (root.get "zmq_port").asInt = .ok v → 1 ≤ v ∧ v ≤ 65535) :
    valid_config (load_config (VideoCapture.new 0 640 480 30) (.document root)).2.1 ∧
      (load_config (VideoCapture.new 0 640 480 30) (.document root)).2.1.fps_ ≠ 0 ∧
      frame_interval (load_config (VideoCapture.new 0 640 480 30) (.document root)).2.1.fps_
        ≠ none := by
  have hdoc := load_config_accepted _ root hacc
  generalize (load_config (VideoCapture.new 0 640 480 30) (.document root)).2.1 = c at hdoc ⊢
  generalize (load_config (VideoCapture.new 0 640 480 30) (.document root)).2.2 = t at hdoc
  obtain ⟨st1, st2, st3, h1, h2, h3, h4⟩ := load_document_ok root _ _ hdoc
  have k1 := load_camera_index_ok root _ _ h1
  have k2 := load_resolution_ok root _ _ h2
  have k3 := load_fps_ok root _ _ h3
  have k4 := load_zmq_port_ok root _ _ h4
  have hvalid : valid_config c := by
    rcases k1 with rfl | ⟨m1, v1, a1, rfl⟩ <;>
    rcases k2 with rfl | ⟨m2, m2', v2, v2', a2, a2', rfl⟩ <;>
    rcases k3 with rfl | ⟨m3, v3, a3, rfl⟩ <;>
    rcases k4 with k4 | ⟨m4, v4, a4, k4⟩ <;>
    simp only [Prod.mk.injEq] at k4 <;>
    obtain ⟨rfl, -⟩ := k4 <;>
    simp only [valid_config, VideoCapture.new, VideoCapture.set_camera_index,
      VideoCapture.set_resolution, VideoCapture.set_fps, VideoCapture.set_zmq_port] <;>
    refine ⟨?_, ?_, ?_, ?_, ?_⟩ <;>
    first
      | decide
      | exact hcam m1 v1 a1
      | exact hwid m2 v2 a2
      | exact hhei m2' v2' a2'
      | exact hfps m3 v3 a3
      | exact hport m4 v4 a4
  have hne : c.fps_ ≠ 0 := by
    have := hvalid.2.2.2.1
    omega
  refine ⟨hvalid, hne, ?_⟩
  simp [frame_interval, hne]

/-- C8 (witness): the amended claim at a document that sets all five keys to valid
values. -/
theorem load_config_keeps_valid_values_witness :
    (load_config (VideoCapture.new 0 640 480 30) (.document fullDocument)).1 = true ∧
      valid_config (load_config (VideoCapture.new 0 640 480 30) (.document fullDocument)).2.1 ∧
      (load_config (VideoCapture.new 0 640 480 30) (.document fullDocument)).2.1.fps_ ≠ 0 ∧
      frame_interval (load_config (VideoCapture.new 0 640 480 30) (.document fullDocument)).2.1.fps_
        ≠ none :=
  ⟨by rfl,
    load_config_keeps_valid_values fullDocument (by rfl)
      (by intro _ v hv; cases hv; decide)
      (by intro _ v hv; cases hv; decide)
      (by intro _ v hv; cases hv; decide)
      (by intro _ v hv; cases hv; decide)
      (by intro _ v hv; cases hv; decide)⟩

/-- C8 (counterexample): the document `{"fps": 0}` is accepted and leaves `fps_ = 0`,
which violates the constraints and makes `1000000 / fps_` undefined. -/
theorem load_config_accepts_zero_fps :
    (load_config (VideoCapture.new 0 640 480 30) (.document zeroFpsDocument)).1 = true ∧
      (load_config (VideoCapture.new 0 640 480 30) (.document zeroFpsDocument)).2.1.fps_ = 0 ∧
      ¬ valid_config (load_config (VideoCapture.new 0 640 480 30) (.document zeroFpsDocument)).2.1 ∧
      frame_interval (load_config (VideoCapture.new 0 640 480 30) (.document zeroFpsDocument)).2.1.fps_
        = none := by
  have h : (load_config (VideoCapture.new 0 640 480 30) (.document zeroFpsDocument)).2.1.fps_ = 0 := by
    rfl
  refine ⟨by rfl, h, ?_, ?_⟩
  · intro hv
    have := hv.2.2.2.1
    rw [h] at this
    exact absurd this (by decide)
  · rw [h]
    rfl

/-- C4 (the code at the failing input): on `{"camera_index": 2, "fps": "thirty"}` the
conversion of `fps` throws, `load_config` returns false, and the capture object keeps the
`camera_index` set before the throw instead of the default 0. -/
theorem load_config_failure_keeps_earlier_keys :
    (load_config (VideoCapture.new 0 640 480 30) (.document textFpsDocument)).1 = false ∧
      (load_config (VideoCapture.new 0 640 480 30) (.document textFpsDocument)).2.1.camera_index_
        = 2 ∧
      (load_config (VideoCapture.new 0 640 480 30) (.document textFpsDocument)).2.1
        ≠ VideoCapture.new 0 640 480 30 := by
  refine ⟨by rfl, by rfl, ?_⟩
  intro h
  have h2 := congrArg VideoCapture.camera_index_ h
  exact absurd h2 (by decide)

/-- C3: for a document whose values under the five keys are integers in the range of
`int`, `load_config` applied to the default capture returns true and leaves exactly the
defaults overridden by the keys present (width and height only when both are present);
without the key `fps` the result has `fps_ = 30`. -/
theorem load_config_overrides_defaults (members : List (String × JsonValue))
    (hint : ∀ key ∈ CONFIG_KEYS, ∀ v, members.lookup key = some v →
      ∃ i, v = .intValue i ∧ INT_MIN ≤ i ∧ i ≤ INT_MAX) :
    load_config (VideoCapture.new 0 640 480 30) (.document (.objectValue members))
        = (true, overridden_defaults members, []) ∧
      (members.lookup "fps" = none → (overridden_defaults members).fps_ = 30) := by
  have h1 := hint "camera_index" (by simp [CONFIG_KEYS])
  have h2 := hint "frame_width" (by simp [CONFIG_KEYS])
  have h3 := hint "frame_height" (by simp [CONFIG_KEYS])
  have h4 := hint "fps" (by simp [CONFIG_KEYS])
  have h5 := hint "zmq_port" (by simp [CONFIG_KEYS])
  clear hint
  constructor
  · have hdef : load_config (VideoCapture.new 0 640 480 30) (.document (.objectValue members)) =
        match load_document (.objectValue members) (VideoCapture.new 0 640 480 30, []) with
        | (.ok _, st) => (true, st.1, st.2)
        | (.error _, st) => (false, st.1, st.2) := rfl
    rw [hdef, load_document_run, load_camera_index_run]
    unfold overridden_defaults member_int
    rcases e1 : members.lookup "camera_index" with _ | v1
    all_goals rcases e2 : members.lookup "frame_width" with _ | v2
    all_goals rcases e3 : members.lookup "frame_height" with _ | v3
    all_goals rcases e4 : members.lookup "fps" with _ | v4
    all_goals rcases e5 : members.lookup "zmq_port" with _ | v5
    all_goals simp only [e1, e2, e3, e4, e5] at h1 h2 h3 h4 h5
    all_goals first | obtain ⟨i1, rfl, ha1, hb1⟩ := h1 v1 rfl | skip
    all_goals first | obtain ⟨i2, rfl, ha2, hb2⟩ := h2 v2 rfl | skip
    all_goals first | obtain ⟨i3, rfl, ha3, hb3⟩ := h3 v3 rfl | skip
    all_goals first | obtain ⟨i4, rfl, ha4, hb4⟩ := h4 v4 rfl | skip
    all_goals first | obtain ⟨i5, rfl, ha5, hb5⟩ := h5 v5 rfl | skip
    all_goals
      simp [load_resolution_run, load_fps_run, load_zmq_port_run,
        JsonValue.isMember, JsonValue.get, JsonValue.asInt,
        VideoCapture.new, VideoCapture.set_camera_index, VideoCapture.set_resolution,
        VideoCapture.set_fps, VideoCapture.set_zmq_port, ZMQSender.destroy, ZMQSender.close,
        ZMQSender.new, e1, e2, e3, e4, e5, *]
  · intro hnone
    simp [overridden_defaults, member_int, hnone]

/-- C3 (witness): a document that sets every key but `fps`. -/
theorem load_config_overrides_defaults_witness :
    load_config (VideoCapture.new 0 640 480 30) (.document (.objectValue noFpsMembers))
        = (true, overridden_defaults noFpsMembers, []) ∧
      (overridden_defaults noFpsMembers).fps_ = 30 ∧
      (overridden_defaults noFpsMembers).camera_index_ = 2 ∧
      (overridden_defaults noFpsMembers).frame_width_ = 1280 ∧
      (overridden_defaults noFpsMembers).frame_height_ = 720 ∧
      (overridden_defaults noFpsMembers).zmq_port_ = 6000 :=
  have h := load_config_overrides_defaults noFpsMembers (by
    intro key hkey v hv
    simp only [CONFIG_KEYS, List.mem_cons, List.mem_singleton, List.not_mem_nil, or_false] at hkey
    rcases hkey with rfl | rfl | rfl | rfl | rfl <;> cases hv <;>
      exact ⟨_, rfl, by decide, by decide⟩)
  ⟨h.1, h.2 (by rfl), by rfl, by rfl, by rfl, by rfl⟩

/-! ## The capture loop -/

/-- The flag `running_` plays no part in `capture_and_send_frame`. -/
theorem capture_and_send_frame_running (w : World) (k : Nat) (c : VideoCapture) (b : Bool) :
    VideoCapture.capture_and_send_frame w k { c with running_ := b } =
      VideoCapture.capture_and_send_frame w k c := rfl

/-- A call of `send_frame` that returns true made exactly one socket send, and the
transport accepted it. -/
theorem send_frame_true (w : World) (k : Nat) (s : ZMQSender) (frame : Frame)
    (events : List Event) (h : s.send_frame w k frame = (true, events)) :
    ∃ buffer n, events = [.socket_send buffer (.sent n)] := by
  unfold ZMQSender.send_frame at h
  split at h
  · cases h
  · split at h
    · cases h
    · rename_i buffer _
      split at h
      · rename_i n _
        cases h
        exact ⟨buffer, n, rfl⟩
      · cases h
      · cases h

/-- A pass in which `capture_and_send_frame` returns true called `send_frame` once and
published one frame. -/
theorem capture_and_send_frame_true (w : World) (k : Nat) (c : VideoCapture)
    (events : List Event) (h : c.capture_and_send_frame w k = .ok (true, events)) :
    ∃ frame buffer n, events = [.send_frame frame, .socket_send buffer (.sent n)] := by
  unfold VideoCapture.capture_and_send_frame at h
  split at h
  · cases h
  · split at h
    · cases h
    · rename_i frame _
      generalize hs : c.zmq_sender_.send_frame w k frame = r at h
      rcases r with ⟨b, ev⟩
      simp only [Except.ok.injEq, Prod.mk.injEq] at h
      obtain ⟨rfl, rfl⟩ := h
      obtain ⟨buffer, n, rfl⟩ := send_frame_true w k _ frame ev hs
      exact ⟨frame, buffer, n, rfl⟩

theorem published_append (s t : List Event) : published (s ++ t) = published s + published t := by
  simp [published, List.countP_append]

theorem socket_sends_append (s t : List Event) :
    socket_sends (s ++ t) = socket_sends s + socket_sends t := by
  simp [socket_sends, List.countP_append]

theorem send_frame_calls_append (s t : List Event) :
    send_frame_calls (s ++ t) = send_frame_calls s + send_frame_calls t := by
  simp [send_frame_calls, List.countP_append]

/-- The pacing statement publishes nothing. -/
theorem pacing_events_counts (interval : Int) (elapsed : Int) :
    published (pacing_events interval elapsed) = 0 ∧
      socket_sends (pacing_events interval elapsed) = 0 ∧
      send_frame_calls (pacing_events interval elapsed) = 0 := by
  unfold pacing_events
  cases pacing_sleep interval elapsed <;>
    simp [published, socket_sends, send_frame_calls, Event.isPublished, Event.isSocketSend,
      Event.isSendFrame]

/-- The signal handler touches neither the capture object nor the pass counter, and
publishes nothing. -/
theorem deliver_facts (w : World) (k : Nat) (p : Proc) :
    (deliver w k p).capture = p.capture ∧ (deliver w k p).passes = p.passes ∧
      published (deliver w k p).trace = published p.trace ∧
      socket_sends (deliver w k p).trace = socket_sends p.trace ∧
      send_frame_calls (deliver w k p).trace = send_frame_calls p.trace := by
  unfold deliver signal_handler
  split <;>
    simp [published, socket_sends, send_frame_calls, Event.isPublished, Event.isSocketSend,
      Event.isSendFrame, List.countP_append]

/-- One evaluation of the loop condition while `running_` holds. -/
theorem run_loop_succ (w : World) (interval : Int) (fuel k : Nat) (p : Proc)
    (h : p.capture.running_ = true) :
    run_loop w interval (fuel + 1) k p =
      match p.capture.capture_and_send_frame w k with
      | .error _ => (.aborted, deliver w k { p with passes := p.passes + 1 })
      | .ok (false, events) =>
          (.returned, { deliver w k { p with passes := p.passes + 1 } with
            trace := (deliver w k { p with passes := p.passes + 1 }).trace ++ events })
      | .ok (true, events) =>
          run_loop w interval fuel (k + 1)
            { deliver w k { p with passes := p.passes + 1 } with
              trace := (deliver w k { p with passes := p.passes + 1 }).trace ++ events ++
                pacing_events interval (w.elapsed k) } := by
  have hc : (deliver w k { p with passes := p.passes + 1 }).capture = p.capture :=
    (deliver_facts w k _).1
  rw [run_loop]
  simp only [h, if_true, hc]

/-- A loop whose next `m` passes succeed and whose pass after them returns false with the
events `last` stops in that pass: it returns, having begun `m + 1` passes. -/
theorem run_loop_stops (w : World) (interval : Int) (c : VideoCapture) (last : List Event) :
    ∀ (m fuel k : Nat) (p : Proc), p.capture = c → c.running_ = true →
      (∀ j < m, ∃ events, c.capture_and_send_frame w (k + j) = .ok (true, events)) →
      c.capture_and_send_frame w (k + m) = .ok (false, last) →
      m < fuel →
      ∃ q, run_loop w interval fuel k p = (.returned, q) ∧ q.capture = c ∧
        q.passes = p.passes + m + 1 ∧
        published q.trace = published p.trace + m + published last ∧
        socket_sends q.trace = socket_sends p.trace + m + socket_sends last ∧
        send_frame_calls q.trace = send_frame_calls p.trace + m + send_frame_calls last := by
  intro m
  induction m with
  | zero =>
      intro fuel k p hp hrun _ hlast hfuel
      obtain ⟨fuel, rfl⟩ : ∃ f, fuel = f + 1 := ⟨fuel - 1, by omega⟩
      subst hp
      obtain ⟨d1, d2, d3, d4, d5⟩ := deliver_facts w k { p with passes := p.passes + 1 }
      rw [run_loop_succ w interval fuel k p hrun]
      simp only [Nat.add_zero] at hlast
      rw [hlast]
      have d2' : (deliver w k { p with passes := p.passes + 1 }).passes = p.passes + 1 := d2
      have d3' : published (deliver w k { p with passes := p.passes + 1 }).trace
          = published p.trace := d3
      have d4' : socket_sends (deliver w k { p with passes := p.passes + 1 }).trace
          = socket_sends p.trace := d4
      have d5' : send_frame_calls (deliver w k { p with passes := p.passes + 1 }).trace
          = send_frame_calls p.trace := d5
      refine ⟨_, rfl, d1, ?_, ?_, ?_, ?_⟩
      · exact d2'
      · show published (_ ++ last) = _
        rw [published_append, d3', Nat.add_zero]
      · show socket_sends (_ ++ last) = _
        rw [socket_sends_append, d4', Nat.add_zero]
      · show send_frame_calls (_ ++ last) = _
        rw [send_frame_calls_append, d5', Nat.add_zero]
  | succ m ih =>
      intro fuel k p hp hrun hok hlast hfuel
      obtain ⟨fuel, rfl⟩ : ∃ f, fuel = f + 1 := ⟨fuel - 1, by omega⟩
      subst hp
      obtain ⟨d1, d2, d3, d4, d5⟩ := deliver_facts w k { p with passes := p.passes + 1 }
      obtain ⟨events, hfirst⟩ := hok 0 (by omega)
      simp only [Nat.add_zero] at hfirst
      obtain ⟨frame, buffer, n, rfl⟩ := capture_and_send_frame_true w k _ events hfirst
      obtain ⟨e1, e2, e3⟩ := pacing_events_counts interval (w.elapsed k)
      rw [run_loop_succ w interval fuel k p hrun, hfirst]
      obtain ⟨q, hq, hqc, hqp, hq1, hq2, hq3⟩ :=
        ih fuel (k + 1)
          { deliver w k { p with passes := p.passes + 1 } with
            trace := (deliver w k { p with passes := p.passes + 1 }).trace ++
              [.send_frame frame, .socket_send buffer (.sent n)] ++
              pacing_events interval (w.elapsed k) }
          d1 hrun
          (by
            intro j hj
            have := hok (j + 1) (by omega)
            rwa [show k + 1 + j = k + (j + 1) by omega])
          (by rwa [show k + 1 + m = k + (m + 1) by omega])
          (by omega)
      have c1 : published [Event.send_frame frame, Event.socket_send buffer (.sent n)] = 1 := rfl
      have c2 : socket_sends [Event.send_frame frame, Event.socket_send buffer (.sent n)] = 1 :=
        rfl
      have c3 : send_frame_calls [Event.send_frame frame, Event.socket_send buffer (.sent n)]
          = 1 := rfl
      have d2' : (deliver w k { p with passes := p.passes + 1 }).passes = p.passes + 1 := d2
      have d3' : published (deliver w k { p with passes := p.passes + 1 }).trace
          = published p.trace := d3
      have d4' : socket_sends (deliver w k { p with passes := p.passes + 1 }).trace
          = socket_sends p.trace := d4
      have d5' : send_frame_calls (deliver w k { p with passes := p.passes + 1 }).trace
          = send_frame_calls p.trace := d5
      dsimp only at hqp hq1 hq2 hq3
      rw [published_append, published_append, c1, e1, d3'] at hq1
      rw [socket_sends_append, socket_sends_append, c2, e2, d4'] at hq2
      rw [send_frame_calls_append, send_frame_calls_append, c3, e3, d5'] at hq3
      rw [d2'] at hqp
      refine ⟨q, hq, hqc, ?_, ?_, ?_, ?_⟩ <;> omega

/-! ## Claims on the capture loop -/

/-- C5: for a positive configured width and height and a frame read from the device,
`capture_and_send_frame` calls `send_frame` with a frame of exactly the configured
size: the frame read when it already has that size, the resized frame otherwise. -/
theorem send_frame_gets_configured_size (w : World) (k : Nat) (c : VideoCapture) (raw : Frame)
    (hwidth : 0 < c.frame_width_) (hheight : 0 < c.frame_height_)
    (hread : cap_read w c k = some raw) :
    ∃ frame,
      c.capture_and_send_frame w k =
        .ok ((c.zmq_sender_.send_frame w k frame).1,
          .send_frame frame :: (c.zmq_sender_.send_frame w k frame).2) ∧
      (frame.cols : Int) = c.frame_width_ ∧ (frame.rows : Int) = c.frame_height_ ∧
      (((raw.cols : Int) = c.frame_width_ ∧ (raw.rows : Int) = c.frame_height_) → frame = raw) ∧
      (¬ ((raw.cols : Int) = c.frame_width_ ∧ (raw.rows : Int) = c.frame_height_) →
        resize w raw c.frame_width_ c.frame_height_ = .ok frame) := by
  have hne : raw.empty = false := by
    unfold cap_read at hread
    split at hread
    · split at hread
      · rename_i g _
        by_cases hg : g.empty = true
        · simp [hg] at hread
        · simp only [hg] at hread
          cases hread
          simpa using hg
      · cases hread
    · cases hread
  by_cases hsame : (raw.cols : Int) = c.frame_width_ ∧ (raw.rows : Int) = c.frame_height_
  · refine ⟨raw, ?_, hsame.1, hsame.2, fun _ => rfl, fun h => absurd hsame h⟩
    unfold VideoCapture.capture_and_send_frame
    rw [hread]
    simp only [resize_if_needed]
    rw [if_neg (by intro h; rcases h with h | h; exact h hsame.1; exact h hsame.2)]
  · have hres : resize w raw c.frame_width_ c.frame_height_ =
        .ok { cols := c.frame_width_.toNat, rows := c.frame_height_.toNat
              data := w.resample raw c.frame_width_.toNat c.frame_height_.toNat } := by
      unfold resize
      rw [hne]
      simp only [Bool.false_eq_true, if_false]
      rw [if_neg (by omega)]
    refine ⟨_, ?_, ?_, ?_, fun h => absurd h hsame, fun _ => hres⟩
    · unfold VideoCapture.capture_and_send_frame
      rw [hread]
      simp only [resize_if_needed]
      rw [if_pos (by
        by_contra hcon
        exact hsame ⟨by_contra fun h => hcon (Or.inl h), by_contra fun h => hcon (Or.inr h)⟩)]
      rw [hres]
    · simp [Int.toNat_of_nonneg hwidth.le]
    · simp [Int.toNat_of_nonneg hheight.le]

/-- C5 (witness): a 320x240 frame read under the default 640x480 configuration. -/
theorem send_frame_gets_configured_size_witness :
    ∃ frame,
      boundCapture.capture_and_send_frame smallFrameWorld 0 =
        .ok ((boundCapture.zmq_sender_.send_frame smallFrameWorld 0 frame).1,
          .send_frame frame :: (boundCapture.zmq_sender_.send_frame smallFrameWorld 0 frame).2) ∧
      (frame.cols : Int) = 640 ∧ (frame.rows : Int) = 480 :=
  have h := send_frame_gets_configured_size smallFrameWorld 0 boundCapture
    { cols := 320, rows := 240, data := [0] } (by decide) (by decide) (by rfl)
  h.imp fun _ hf => ⟨hf.1, hf.2.1, hf.2.2.1⟩

/-- C6: when passes 1 to N-1 read and publish and the read of pass N fails, `run`
returns in pass N, given fuel for N passes: N passes were begun, `send_frame` was called
and the socket sent N-1 times, and N-1 frames were published. -/
theorem read_failure_stops_run (w : World) (N fuel : Nat) (p : Proc)
    (hN : 1 ≤ N) (hopen : p.capture.cap_opened = true) (hfps : p.capture.fps_ ≠ 0)
    (hok : ∀ k < N - 1, ∃ events, p.capture.capture_and_send_frame w k = .ok (true, events))
    (hfail : cap_read w p.capture (N - 1) = none)
    (hfuel : N ≤ fuel) :
    (VideoCapture.run w fuel p).1 = .returned ∧
      (VideoCapture.run w fuel p).2.passes = p.passes + N ∧
      send_frame_calls (VideoCapture.run w fuel p).2.trace
        = send_frame_calls p.trace + (N - 1) ∧
      socket_sends (VideoCapture.run w fuel p).2.trace = socket_sends p.trace + (N - 1) ∧
      published (VideoCapture.run w fuel p).2.trace = published p.trace + (N - 1) := by
  have hlast : VideoCapture.capture_and_send_frame w (0 + (N - 1))
      { p.capture with running_ := true } = .ok (false, []) := by
    rw [capture_and_send_frame_running, Nat.zero_add]
    unfold VideoCapture.capture_and_send_frame
    rw [hfail]
  obtain ⟨q, hq, -, hp, h1, h2, h3⟩ :=
    run_loop_stops w (Int.tdiv 1000000 p.capture.fps_) { p.capture with running_ := true } []
      (N - 1) fuel 0 { p with capture := { p.capture with running_ := true } } rfl rfl
      (by
        intro j hj
        rw [capture_and_send_frame_running, Nat.zero_add]
        exact hok j hj)
      hlast (by omega)
  have hrun : VideoCapture.run w fuel p = (.returned, q) := by
    unfold VideoCapture.run
    rw [hopen]
    simp only [Bool.not_true, Bool.false_eq_true, if_false, frame_interval, if_neg hfps]
    exact hq
  rw [hrun]
  have z1 : published ([] : List Event) = 0 := rfl
  have z2 : socket_sends ([] : List Event) = 0 := rfl
  have z3 : send_frame_calls ([] : List Event) = 0 := rfl
  rw [z1] at h1
  rw [z2] at h2
  rw [z3] at h3
  dsimp only at hp h1 h2 h3 ⊢
  refine ⟨rfl, ?_, ?_, ?_, ?_⟩ <;> omega

/-- C6 (witness): the camera delivers two frames and fails in pass 3. -/
theorem read_failure_stops_run_witness :
    (VideoCapture.run unpluggedWorld 5 readyProc).1 = .returned ∧
      (VideoCapture.run unpluggedWorld 5 readyProc).2.passes = 3 ∧
      send_frame_calls (VideoCapture.run unpluggedWorld 5 readyProc).2.trace = 2 ∧
      socket_sends (VideoCapture.run unpluggedWorld 5 readyProc).2.trace = 2 ∧
      published (VideoCapture.run unpluggedWorld 5 readyProc).2.trace = 2 :=
  read_failure_stops_run unpluggedWorld 3 5 readyProc (by decide) (by rfl) (by decide)
    (by
      intro k hk
      have hk2 : k < 2 := hk
      interval_cases k
      · exact ⟨_, rfl⟩
      · exact ⟨_, rfl⟩)
    (by rfl) (by decide)

/-- C10: when the encoder refuses the frame handed to `send_frame` or throws on it,
`send_frame` returns false without a socket send, and a loop whose pass `k` reaches
`send_frame` with that frame returns in that pass: one more pass begun, no socket send
added, and the trace extended by the signal handler (if a signal came) and the call of
`send_frame` only. -/
theorem encode_failure_halts_loop (w : World) (interval : Int) (fuel k : Nat) (p : Proc)
    (raw frame : Frame) (hrun : p.capture.running_ = true)
    (hread : cap_read w p.capture k = some raw)
    (hsize : resize_if_needed w p.capture raw = .ok frame)
    (henc : w.imencode frame = .refused ∨ w.imencode frame = .thrown) :
    (∀ s : ZMQSender, s.send_frame w k frame = (false, [])) ∧
      (run_loop w interval (fuel + 1) k p).1 = .returned ∧
      (run_loop w interval (fuel + 1) k p).2.passes = p.passes + 1 ∧
      (run_loop w interval (fuel + 1) k p).2.trace =
        p.trace ++ (if w.signal k then [Event.signal_handled] else []) ++ [.send_frame frame] ∧
      socket_sends (run_loop w interval (fuel + 1) k p).2.trace = socket_sends p.trace := by
  have hser : ZMQSender.serialize_frame w frame = none := by
    unfold ZMQSender.serialize_frame
    rcases henc with h | h <;> rw [h]
  have hsend : ∀ s : ZMQSender, s.send_frame w k frame = (false, []) := by
    intro s
    unfold ZMQSender.send_frame
    split
    · rfl
    · rw [hser]
  have hpass : p.capture.capture_and_send_frame w k = .ok (false, [.send_frame frame]) := by
    unfold VideoCapture.capture_and_send_frame
    rw [hread]
    simp only [hsize, hsend]
  have htrace : (deliver w k { p with passes := p.passes + 1 }).trace =
      p.trace ++ (if w.signal k then [Event.signal_handled] else []) := by
    unfold deliver signal_handler
    split <;> simp
  obtain ⟨-, d2, -, d4, -⟩ := deliver_facts w k { p with passes := p.passes + 1 }
  rw [run_loop_succ w interval fuel k p hrun, hpass]
  refine ⟨hsend, rfl, d2, ?_, ?_⟩
  · show (deliver w k { p with passes := p.passes + 1 }).trace ++ [.send_frame frame] = _
    rw [htrace]
  · show socket_sends ((deliver w k { p with passes := p.passes + 1 }).trace ++
      [.send_frame frame]) = _
    rw [socket_sends_append, d4]
    rfl

/-- C10 (witness): the encoder refuses the first frame of a run. -/
theorem encode_failure_halts_loop_witness :
    (boundCapture.zmq_sender_.send_frame brokenEncoderWorld 0
        { cols := 640, rows := 480, data := [0] } = (false, [])) ∧
      (run_loop brokenEncoderWorld 33333 4 0
        { readyProc with capture := { boundCapture with running_ := true } }).1 = .returned ∧
      (run_loop brokenEncoderWorld 33333 4 0
        { readyProc with capture := { boundCapture with running_ := true } }).2.trace
        = [.send_frame { cols := 640, rows := 480, data := [0] }] :=
  have h := encode_failure_halts_loop brokenEncoderWorld 33333 3 0
    { readyProc with capture := { boundCapture with running_ := true } }
    { cols := 640, rows := 480, data := [0] } { cols := 640, rows := 480, data := [0] }
    (by rfl) (by rfl) (by rfl) (Or.inl (by rfl))
  ⟨h.1 _, h.2.1, h.2.2.2.1⟩


/-! ## Claims on `main` and the signal handler -/

/-- Once `running` is false it stays false: nothing in the loop writes it but the
signal handler. -/
theorem run_loop_keeps_stop_request (w : World) (interval : Int) :
    ∀ (fuel k : Nat) (p : Proc), p.running = false →
      (run_loop w interval fuel k p).2.running = false := by
  intro fuel
  induction fuel with
  | zero =>
      intro k p h
      exact h
  | succ fuel ih =>
      intro k p h
      have hd : (deliver w k { p with passes := p.passes + 1 }).running = false := by
        unfold deliver signal_handler
        split
        · rfl
        · exact h
      by_cases hrun : p.capture.running_ = true
      · rw [run_loop_succ w interval fuel k p hrun]
        rcases p.capture.capture_and_send_frame w k with e | ⟨b, events⟩
        · exact hd
        · cases b
          · exact hd
          · exact ih _ _ hd
      · rw [run_loop]
        simp only [hrun]
        exact h

/-- A loop in which every pass succeeds is still going after any number of evaluations
of its condition, whatever signals arrive: it has begun and published one frame per
evaluation. -/
theorem run_loop_goes_on (w : World) (interval : Int) (c : VideoCapture)
    (hall : ∀ k, ∃ events, c.capture_and_send_frame w k = .ok (true, events)) :
    ∀ (fuel k : Nat) (p : Proc), p.capture = c → c.running_ = true →
      (run_loop w interval fuel k p).1 = .unfinished ∧
        (run_loop w interval fuel k p).2.capture = c ∧
        (run_loop w interval fuel k p).2.passes = p.passes + fuel ∧
        published (run_loop w interval fuel k p).2.trace = published p.trace + fuel := by
  intro fuel
  induction fuel with
  | zero =>
      intro k p hp _
      exact ⟨rfl, hp, rfl, rfl⟩
  | succ fuel ih =>
      intro k p hp hrun
      subst hp
      obtain ⟨events, hpass⟩ := hall k
      obtain ⟨frame, buffer, n, rfl⟩ := capture_and_send_frame_true w k _ events hpass
      obtain ⟨d1, d2, d3, -, -⟩ := deliver_facts w k { p with passes := p.passes + 1 }
      obtain ⟨e1, -, -⟩ := pacing_events_counts interval (w.elapsed k)
      have d2' : (deliver w k { p with passes := p.passes + 1 }).passes = p.passes + 1 := d2
      have d3' : published (deliver w k { p with passes := p.passes + 1 }).trace
          = published p.trace := d3
      have c1 : published [Event.send_frame frame, Event.socket_send buffer (.sent n)] = 1 := rfl
      rw [run_loop_succ w interval fuel k p hrun, hpass]
      obtain ⟨h1, h2, h3, h4⟩ :=
        ih (k + 1)
          { deliver w k { p with passes := p.passes + 1 } with
            trace := (deliver w k { p with passes := p.passes + 1 }).trace ++
              [.send_frame frame, .socket_send buffer (.sent n)] ++
              pacing_events interval (w.elapsed k) }
          d1 hrun
      refine ⟨h1, h2, h3.trans ?_, h4.trans ?_⟩
      · show (deliver w k { p with passes := p.passes + 1 }).passes + fuel = p.passes + (fuel + 1)
        rw [d2']
        omega
      · show published ((deliver w k { p with passes := p.passes + 1 }).trace ++
            [.send_frame frame, .socket_send buffer (.sent n)] ++
            pacing_events interval (w.elapsed k)) + fuel = published p.trace + (fuel + 1)
        rw [published_append, published_append, c1, e1, d3']
        omega

/-- C1 (the code at the failing input): SIGINT arrives during the first pass of a run in
which camera and publisher work.  The handler clears `running`, the loop tests
`running_`, which stays true: for every number of further evaluations of the loop
condition the loop is still going and has published a frame in every pass. -/
theorem signal_does_not_stop_loop (fuel : Nat) :
    (main interruptedWorld .unreadable (fuel + 1)).1 = .unfinished ∧
      (main interruptedWorld .unreadable (fuel + 1)).2.running = false ∧
      (main interruptedWorld .unreadable (fuel + 1)).2.capture.running_ = true ∧
      (main interruptedWorld .unreadable (fuel + 1)).2.passes = fuel + 1 ∧
      published (main interruptedWorld .unreadable (fuel + 1)).2.trace = fuel + 1 := by
  have hall : ∀ k, ∃ events,
      VideoCapture.capture_and_send_frame interruptedWorld k { boundCapture with running_ := true }
        = .ok (true, events) := fun k => ⟨_, rfl⟩
  have hmain : main interruptedWorld .unreadable (fuel + 1) =
      match run_loop interruptedWorld 33333 (fuel + 1) 0
          { running := true, capture := { boundCapture with running_ := true }
            trace := [.socket_bind "tcp://*:5555" true], passes := 0 } with
      | (.returned, p) =>
          (.code 0, { p with capture := p.capture.stop
                             trace := p.trace ++ p.capture.zmq_sender_.destroy })
      | (.aborted, p) => (.aborted, p)
      | (.unfinished, p) => (.unfinished, p) := rfl
  obtain ⟨h1, h2, h3, h4⟩ :=
    run_loop_goes_on interruptedWorld 33333 { boundCapture with running_ := true } hall
      (fuel + 1) 0
      { running := true, capture := { boundCapture with running_ := true }
        trace := [.socket_bind "tcp://*:5555" true], passes := 0 } rfl rfl
  have hstep : run_loop interruptedWorld 33333 (fuel + 1) 0
      { running := true, capture := { boundCapture with running_ := true }
        trace := [.socket_bind "tcp://*:5555" true], passes := 0 } =
      run_loop interruptedWorld 33333 fuel 1
        { running := false, capture := { boundCapture with running_ := true }
          trace := [.socket_bind "tcp://*:5555" true, .signal_handled,
            .send_frame { cols := 640, rows := 480, data := [0] },
            .socket_send [0] (.sent 1), .sleep_for 28333000]
          passes := 1 } := rfl
  have h5 := run_loop_keeps_stop_request interruptedWorld 33333 fuel 1
    { running := false, capture := { boundCapture with running_ := true }
      trace := [.socket_bind "tcp://*:5555" true, .signal_handled,
        .send_frame { cols := 640, rows := 480, data := [0] },
        .socket_send [0] (.sent 1), .sleep_for 28333000]
      passes := 1 } rfl
  rw [← hstep] at h5
  rw [hmain]
  generalize run_loop interruptedWorld 33333 (fuel + 1) 0
      { running := true, capture := { boundCapture with running_ := true }
        trace := [.socket_bind "tcp://*:5555" true], passes := 0 } = r at h1 h2 h3 h4 h5
  rcases r with ⟨o, q⟩
  simp only at h1
  subst h1
  have hp : published [Event.socket_bind "tcp://*:5555" true] = 0 := rfl
  refine ⟨rfl, h5, ?_, ?_, ?_⟩
  · show q.capture.running_ = true
    rw [h2]
  · show q.passes = fuel + 1
    rw [h3]
    simp
  · show published q.trace = fuel + 1
    rw [h4, hp]
    simp

/-- The method `initialize` returns false exactly when the camera does not open or the
bind throws. -/
theorem initialize_false_iff (w : World) (c : VideoCapture) :
    ( VideoCapture.initialize w c).1 = false ↔
      (w.camera_opens c.camera_index_ = false ∨ w.bind_ok c.zmq_sender_.address_ = false) := by
  unfold VideoCapture.initialize ZMQSender.initialize
  cases hcam : w.camera_opens c.camera_index_ <;> cases hbind : w.bind_ok c.zmq_sender_.address_ <;>
    simp [hcam, hbind]

/-- After `initialize` returned true the camera is open and the configuration is the
one it was given. -/
theorem initialize_true (w : World) (c : VideoCapture)
    (h : ( VideoCapture.initialize w c).1 = true) :
    ( VideoCapture.initialize w c).2.1.cap_opened = true ∧
      ( VideoCapture.initialize w c).2.1.fps_ = c.fps_ := by
  unfold VideoCapture.initialize ZMQSender.initialize at h ⊢
  cases hcam : w.camera_opens c.camera_index_ <;> cases hbind : w.bind_ok c.zmq_sender_.address_ <;>
    simp [hcam, hbind] at h ⊢

/-- With the camera open and `fps_` not zero, `run` is the loop from pass 0 with
`running_` set. -/
theorem run_eq_run_loop (w : World) (fuel : Nat) (p : Proc)
    (hopen : p.capture.cap_opened = true) (hfps : p.capture.fps_ ≠ 0) :
    VideoCapture.run w fuel p =
      run_loop w (Int.tdiv 1000000 p.capture.fps_) fuel 0
        { p with capture := { p.capture with running_ := true } } := by
  unfold VideoCapture.run
  simp only [hopen, Bool.not_true, Bool.false_eq_true, if_false, frame_interval, if_neg hfps]

/-- C2 (amended): when the camera does not open or the bind fails, `main` returns 1;
when `initialize` succeeded, `fps_` is not zero, and a pass of the capture loop fails
(read, encode or send: `capture_and_send_frame` returns false) after passes that
succeeded, the loop stops and `main` returns 0. -/
theorem main_exit_status (w : World) (file : ConfigFile) (fuel N : Nat) (last : List Event) :
    ((w.camera_opens (loaded_capture file).camera_index_ = false ∨
        w.bind_ok (loaded_capture file).zmq_sender_.address_ = false) →
      (main w file fuel).1 = .code 1) ∧
    (( VideoCapture.initialize w (loaded_capture file)).1 = true →
      (loaded_capture file).fps_ ≠ 0 →
      (∀ k < N, ∃ events,
        (opened_capture w file).capture_and_send_frame w k = .ok (true, events)) →
      (opened_capture w file).capture_and_send_frame w N = .ok (false, last) →
      N < fuel →
      (main w file fuel).1 = .code 0) := by
  constructor
  · intro hfail
    have h := (initialize_false_iff w (loaded_capture file)).mpr hfail
    unfold main
    simp only [loaded_capture] at h
    simp only [h, Bool.not_false, if_true]
  · intro hinit hfps hok hlast hfuel
    obtain ⟨hopen, hsame⟩ := initialize_true w (loaded_capture file) hinit
    have hfps' : (opened_capture w file).fps_ ≠ 0 := by
      unfold opened_capture
      rw [hsame]
      exact hfps
    obtain ⟨q, hq, -⟩ :=
      run_loop_stops w (Int.tdiv 1000000 (opened_capture w file).fps_)
        { opened_capture w file with running_ := true } last N fuel 0
        { running := true, capture := { opened_capture w file with running_ := true }
          trace := (load_config (VideoCapture.new 0 640 480 30) file).2.2 ++
            ( VideoCapture.initialize w (loaded_capture file)).2.2
          passes := 0 }
        rfl rfl
        (by
          intro j hj
          rw [capture_and_send_frame_running, Nat.zero_add]
          exact hok j hj)
        (by
          rw [capture_and_send_frame_running, Nat.zero_add]
          exact hlast)
        hfuel
    have hrun : VideoCapture.run w fuel
        { running := true, capture := opened_capture w file
          trace := (load_config (VideoCapture.new 0 640 480 30) file).2.2 ++
            ( VideoCapture.initialize w (loaded_capture file)).2.2
          passes := 0 } = (.returned, q) := by
      rw [run_eq_run_loop w fuel _ hopen hfps']
      exact hq
    have hinit' : ( VideoCapture.initialize w
        (load_config (VideoCapture.new 0 640 480 30) file).2.1).1 = true := hinit
    have hrun' : VideoCapture.run w fuel
        { running := true
          capture := ( VideoCapture.initialize w
            (load_config (VideoCapture.new 0 640 480 30) file).2.1).2.1
          trace := (load_config (VideoCapture.new 0 640 480 30) file).2.2 ++
            ( VideoCapture.initialize w
              (load_config (VideoCapture.new 0 640 480 30) file).2.1).2.2
          passes := 0 } = (.returned, q) := hrun
    unfold main
    simp only [hinit', Bool.not_true, Bool.false_eq_true, if_false, hrun']

/-- C2 (witness): with a camera that does not open `main` returns 1; with an encoder
that refuses the first frame the loop stops in its first pass and `main` returns 0. -/
theorem main_exit_status_witness :
    noCameraWorld.camera_opens (loaded_capture .unreadable).camera_index_ = false ∧
      (main noCameraWorld .unreadable 1).1 = .code 1 ∧
      (main brokenEncoderWorld .unreadable 1).1 = .code 0 :=
  ⟨by rfl, (main_exit_status noCameraWorld .unreadable 1 0 []).1 (Or.inl (by rfl)),
    (main_exit_status brokenEncoderWorld .unreadable 1 0
      [.send_frame { cols := 640, rows := 480, data := [0] }]).2 (by rfl) (by decide)
      (fun k hk => absurd hk (Nat.not_lt_zero k)) (by rfl) (by decide)⟩

/-- C2 (counterexample): the camera opens, the publisher binds, two frames are
published and the read of the third pass fails: a fatal error inside the capture loop,
and `main` returns 0. -/
theorem main_returns_zero_after_read_failure :
    ( VideoCapture.initialize unpluggedWorld (loaded_capture .unreadable)).1 = true ∧
      cap_read unpluggedWorld (opened_capture unpluggedWorld .unreadable) 2 = none ∧
      (opened_capture unpluggedWorld .unreadable).capture_and_send_frame unpluggedWorld 2
        = .ok (false, []) ∧
      (main unpluggedWorld .unreadable 5).1 = .code 0 :=
  ⟨by rfl, by rfl, by rfl, by rfl⟩

/-! ## Claim on `set_zmq_port` -/

/-- C7 (amended): on a capture object whose publisher is bound (after `initialize`
succeeded), `set_zmq_port(p)` closes the old socket and replaces the publisher by a
new `ZMQSender` for `tcp://*:p` that is not bound: `is_connected()` is false and
`send_frame` returns false without a socket send.  A later successful `initialize`
binds it at `tcp://*:p`. -/
theorem set_zmq_port_leaves_publisher_unbound (w : World) (c : VideoCapture) (port : Int)
    (hinit : ( VideoCapture.initialize w c).1 = true) :
    ( VideoCapture.initialize w c).2.1.zmq_sender_.is_connected = true ∧
      (( VideoCapture.initialize w c).2.1.set_zmq_port port).2
        = [.socket_close (some c.zmq_sender_.address_)] ∧
      (( VideoCapture.initialize w c).2.1.set_zmq_port port).1.zmq_port_ = port ∧
      (( VideoCapture.initialize w c).2.1.set_zmq_port port).1.zmq_sender_
        = ZMQSender.new (endpoint port) ∧
      (( VideoCapture.initialize w c).2.1.set_zmq_port port).1.zmq_sender_.is_connected = false ∧
      (∀ k frame,
        (( VideoCapture.initialize w c).2.1.set_zmq_port port).1.zmq_sender_.send_frame w k frame
          = (false, [])) ∧
      (w.bind_ok (endpoint port) = true →
        ( VideoCapture.initialize w
          (( VideoCapture.initialize w c).2.1.set_zmq_port port).1).2.1.zmq_sender_
          = { socket_ := some { endpoint := some (endpoint port) }
              address_ := endpoint port, connected_ := true }) := by
  have hcam : w.camera_opens c.camera_index_ = true := by
    by_contra hne
    have := (initialize_false_iff w c).mpr (Or.inl (by simpa using hne))
    rw [hinit] at this
    cases this
  have hbind : w.bind_ok c.zmq_sender_.address_ = true := by
    by_contra hne
    have := (initialize_false_iff w c).mpr (Or.inr (by simpa using hne))
    rw [hinit] at this
    cases this
  have hc : ( VideoCapture.initialize w c).2.1 =
      { c with cap_opened := true
               zmq_sender_ := { c.zmq_sender_ with
                 socket_ := some { endpoint := some c.zmq_sender_.address_ }
                 connected_ := true } } := by
    unfold VideoCapture.initialize ZMQSender.initialize
    simp [hcam, hbind]
  rw [hc]
  refine ⟨rfl, rfl, rfl, rfl, rfl, fun _ _ => rfl, ?_⟩
  intro hnew
  unfold VideoCapture.initialize ZMQSender.initialize
  simp [VideoCapture.set_zmq_port, ZMQSender.new, hcam, hnew]

/-- C7 (witness): the default capture bound at port 5555, then `set_zmq_port(6000)`. -/
theorem set_zmq_port_leaves_publisher_unbound_witness :
    boundCapture.zmq_sender_.is_connected = true ∧
      (boundCapture.set_zmq_port 6000).2 = [.socket_close (some (endpoint 5555))] ∧
      (boundCapture.set_zmq_port 6000).1.zmq_sender_ = ZMQSender.new (endpoint 6000) :=
  have h := set_zmq_port_leaves_publisher_unbound steadyWorld (VideoCapture.new 0 640 480 30)
    6000 (by rfl)
  ⟨h.1, h.2.1, h.2.2.2.1⟩

/-- C7 (counterexample): after `initialize` bound the default publisher at port 5555,
`set_zmq_port(6000)` leaves a publisher with `is_connected() = false` whose `send_frame`
returns false without a socket send. -/
theorem set_zmq_port_does_not_bind :
    boundCapture.zmq_sender_.is_connected = true ∧
      (boundCapture.set_zmq_port 6000).1.zmq_sender_.is_connected = false ∧
      (boundCapture.set_zmq_port 6000).1.zmq_sender_.socket_ = none ∧
      (boundCapture.set_zmq_port 6000).1.zmq_sender_.send_frame steadyWorld 0
        { cols := 640, rows := 480, data := [0] } = (false, []) :=
  ⟨by rfl, by rfl, by rfl, by rfl⟩

/-! ## Claim on the pacing of the loop -/

end DVR
